import Mathlib

/-
Verification of the prompt_synthesizer repository (src/prompt_synthesizer.py).

Embedding conventions:
- Python strings are modelled as `List Char` (`Str`); string literals are
  written with `chars "..."` which takes the character data of a Lean string
  literal.  Python string concatenation and f-string interpolation become
  list append.
- `str.lower()` is modelled as a character-wise `Char.toLower` (this agrees
  with Python on ASCII text, which is all the heuristic here inspects).
- `str.count(pat)` is Python's count of non-overlapping occurrences scanning
  left to right; `pat in s` is substring containment.
- The Streamlit submission handler (the `try`/`except` block) is modelled as
  a total function over an injected record of external effects (the model
  call, the .txt write, the history-CSV read and write), each of which can
  either succeed or raise.  The `except Exception` clause catches every
  raised exception, so the model records an `uncaught` field that is `none`
  in every branch of the handler.  A CSV write that raises leaves the file
  with injected indeterminate contents, since `to_csv` truncates the file
  before writing.
- The history CSV file is modelled as `Option (List HistoryRecord)`:
  `none` when the file does not exist, `some rows` for its contents.
-/

abbrev Str := List Char

def chars (s : String) : Str := s.data

/-- Bool test that `pat` is a prefix of `s` (used to scan for substrings). -/
def hasPrefix : Str → Str → Bool
  | [], _ => true
  | _ :: _, [] => false
  | p :: ps, c :: cs => (p == c) && hasPrefix ps cs

/-- Python `pat in s`: `pat` occurs as a contiguous substring of `s`. -/
def containsSub : Str → Str → Bool
  | [], pat => hasPrefix pat []
  | c :: rest, pat => hasPrefix pat (c :: rest) || containsSub rest pat

/-- Fueled scanner behind `countOccs`; the fuel starts at the length of the
scanned string, which bounds the number of scanning steps, so the
definition is structural and evaluates in the kernel. -/
def countOccsAux (pat : Str) : Nat → Str → Nat
  | 0, _ => 0
  | _ + 1, [] => 0
  | fuel + 1, c :: rest =>
    if hasPrefix pat (c :: rest) then
      1 + countOccsAux pat fuel (List.drop (pat.length - 1) rest)
    else
      countOccsAux pat fuel rest

/-- Python `s.count(pat)`: number of non-overlapping occurrences of `pat`
in `s`, scanning left to right and skipping past each match. -/
def countOccs (s pat : Str) : Nat := countOccsAux pat s.length s

/-- Python `s.lower()` restricted to the ASCII letters this program inspects. -/
def pyLower (s : Str) : Str := s.map Char.toLower

-- Source line 225: `if "prompt" in goal.lower() and goal.lower().count("prompt") >= 3:`
def inceptionCond (goal : Str) : Bool :=
  containsSub (pyLower goal) (chars "prompt") &&
    decide (3 ≤ countOccs (pyLower goal) (chars "prompt"))

-- The fixed pieces of the normal-mode f-string (source lines 250-268),
-- split at the four interpolation sites.
def normal_seg0 : Str := chars "\nYou are a professional AI prompt engineer. Your task is to turn a rough user idea into a clear, structured, and effective AI prompt.\n\nHere is the input:\n- Goal: "

def normal_seg1 : Str := chars "\n- Tone: "

def normal_seg2 : Str := chars "\n- Output Type: "

def normal_seg3 : Str := chars "\n- Audience: "

def normal_seg4 : Str := chars "\n\nWrite a full prompt that:\n- Starts by instructing the AI what role to take\n- Clearly sets the task\n- Specifies the tone or style\n- Includes formatting guidance (if helpful)\n- Optionally includes a sample input/output pair\n- Ends with a short tip on how to customize it further\n\nRespond only with the generated prompt and tip.\n"

/-- Normal-mode `prompt_template` (source lines 250-268). -/
def normal_prompt_template (goal tone output_type audience : Str) : Str :=
  normal_seg0 ++ goal ++ normal_seg1 ++ tone ++ normal_seg2 ++ output_type ++
    normal_seg3 ++ audience ++ normal_seg4

-- The fixed pieces of the recursion-mode ("inception") f-string
-- (source lines 235-248), split at the two interpolation sites.
def inception_seg0 : Str := chars "\nYou are an AI designed to generate prompts that generate prompts.\nRecursion depth: "

def inception_seg1 : Str := chars "\nGod Mode: "

def inception_seg2 : Str := chars "\n\nYour task:\n- Create a prompt that instructs an AI how to help someone write better prompts.\n- The tone should be clear, structured, and meta-aware.\n- Include formatting guidance.\n- Include a bad vs good prompt example (optional).\n- End with a meta-tip for refining future prompts.\n\nRespond only with the generated prompt and a meta-tip.\n"

/-- Recursion-mode `prompt_template` (source lines 235-248); interpolates
only `depth` (Python `str(depth)`) and the god-mode flag. -/
def inception_prompt_template (depth : Nat) (god_mode : Bool) : Str :=
  inception_seg0 ++ chars (Nat.repr depth) ++ inception_seg1 ++
    (if god_mode then chars "ON" else chars "OFF") ++ inception_seg2

/-- The prompt-assembly logic of the submission branch (source lines
223-268): pick the recursion-mode template when the heuristic on the goal
fires, the normal-mode template otherwise. -/
def assemble (goal tone output_type audience : Str) (depth : Nat)
    (god_mode : Bool) : Str :=
  if inceptionCond goal then inception_prompt_template depth god_mode
  else normal_prompt_template goal tone output_type audience

-- Source lines 54-59.
def valid_tones : List Str := [
  chars "Clear and helpful", chars "Professional", chars "Casual", chars "Funny", chars "Creative",
  chars "Motivational", chars "Witty", chars "Analytical", chars "Cynical but comforting", chars "Roasty",
  chars "Passive aggressive", chars "Aggressively encouraging", chars "Satirical", chars "Irritated",
  chars "Snarky", chars "Reflective"]

-- The fixed output-format list passed to the selectbox (source lines 214-215).
def output_types : List Str := [
  chars "Text", chars "Conversation", chars "Image Prompt", chars "Markdown",
  chars "Bullet List", chars "JSON"]

/-- One preset of the template catalog: the four prefill fields. -/
structure Template where
  goal : Str
  tone : Str
  output_type : Str
  audience : Str
deriving DecidableEq

-- Source lines 62-159, in source order.
def templates_by_category : List (Str × List (Str × Template)) := [
  (chars "Real Estate", [
    (chars "Cold Outreach Message",
      ⟨chars "Craft a short, attention-grabbing message to reach out to a new commercial real estate prospect in Tucson, AZ.",
       chars "Professional", chars "Text", chars "Commercial property owners"⟩),
    (chars "Market Summary Generator",
      ⟨chars "Summarize the current real estate market trends for investors in a specific submarket.",
       chars "Clear and helpful", chars "Markdown", chars "CRE investors"⟩),
    (chars "Deal Analysis Helper",
      ⟨chars "Help analyze the pros and cons of an industrial property investment opportunity in Tucson, AZ.",
       chars "Analytical", chars "Bullet List", chars "CRE analysts and brokers"⟩)]),
  (chars "Productivity & Learning", [
    (chars "Productivity Prompt Planner",
      ⟨chars "Generate a set of focused prompts to help me plan and prioritize my day effectively.",
       chars "Motivational", chars "Bullet List", chars "Busy professionals and productivity nerds"⟩),
    (chars "Prompt Engineering Optimizer",
      ⟨chars "Take a rough prompt I\x27ve written and improve it so it\x27s more structured, clear, and effective.",
       chars "Clear and helpful", chars "Markdown", chars "Anyone learning how to prompt better"⟩),
    (chars "Weekly Review Wizard",
      ⟨chars "Guide me through a weekly review of what I accomplished, learned, and what I want to focus on next.",
       chars "Reflective", chars "Conversation", chars "Personal growth and productivity focused users"⟩)]),
  (chars "Creative & Fun", [
    (chars "Vibecode Brainstorm Buddy",
      ⟨chars "Come up with fresh, creative app or automation ideas that I could build with my current skills.",
       chars "Creative", chars "Bullet List", chars "A vibecoder looking for weekend build ideas"⟩),
    (chars "Mindset Reframe",
      ⟨chars "Help me reframe a negative thought or frustration into something more constructive and empowering.",
       chars "Witty", chars "Text", chars "Someone in a funk who needs a boost"⟩),
    (chars "Existential Crisis Coach",
      ⟨chars "Help me cope with the crushing weight of late capitalism using sarcasm and dark humor.",
       chars "Cynical but comforting", chars "Text", chars "Millennials spiraling at 2AM"⟩),
    (chars "Roast My Life Decisions",
      ⟨chars "Make fun of me for buying a $7 latte instead of saving for retirement, but make it clever and a little too real.",
       chars "Roasty", chars "Bullet List", chars "People who enjoy pain as comedy"⟩),
    (chars "Email Response Rage Filter",
      ⟨chars "Help me respond to a deeply annoying email in a professional tone while screaming internally.",
       chars "Passive aggressive", chars "Text", chars "Anyone who\x27s ever replied all by accident"⟩),
    (chars "Clean Your Damn Room Bot",
      ⟨chars "Write a motivational pep talk that uses tough love and light profanity to convince me to clean my disgusting room.",
       chars "Aggressively encouraging", chars "Text", chars "Procrastinators and goblins"⟩),
    (chars "Startup Idea Generator (That Probably Sucks)",
      ⟨chars "Give me absurd startup ideas that sound real until you think about them for more than 10 seconds.",
       chars "Satirical", chars "Bullet List", chars "Tech bros with too much VC money"⟩),
    (chars "Rage Journal Prompt",
      ⟨chars "Give me a writing prompt to vent all my rage about people who don’t use their turn signals.",
       chars "Irritated", chars "Markdown", chars "Drivers barely holding on"⟩),
    (chars "Corporate Bullshit Translator",
      ⟨chars "Take a vague corporate memo and rewrite it with brutal honesty, swearing allowed.",
       chars "Snarky", chars "Text", chars "Employees who know the game"⟩)])]

/-- The flattened name-to-preset table built at startup (source lines
167-173).  The preset names are pairwise distinct, so the Python dict built
by repeated assignment behaves as first-match lookup on this list. -/
def templates : List (Str × Template) :=
  (templates_by_category.map (fun p => p.2)).foldr (fun l acc => l ++ acc) []

/-- Python `templates.get(name, {})` (source line 203). -/
def templates_get (name : Str) : Option Template :=
  (templates.find? (fun p => p.1 == name)).map (fun p => p.2)

/-- Python `list.index(x)` (source lines 212-215): position of the first
occurrence, `none` when absent (where Python raises ValueError). -/
def pyIndex (l : List Str) (x : Str) : Option Nat :=
  match l with
  | [] => none
  | y :: ys => if y == x then some 0 else (pyIndex ys x).map (fun n => n + 1)

/-- The form-prefill logic (source lines 201-216): look the selected name up
in the flattened catalog, fall back to the widget defaults when absent, and
resolve the tone and output-type selectboxes through `list.index` into the
fixed label lists.  Returns `none` when a selectbox `index` lookup would
raise ValueError. -/
def form_prefill (selected : Str) : Option (Str × Str × Str × Str) :=
  let data := templates_get selected
  let goal := match data with | some t => t.goal | none => chars ""
  let toneWanted := match data with | some t => t.tone | none => chars "Clear and helpful"
  let otWanted := match data with | some t => t.output_type | none => chars "Text"
  let audience := match data with | some t => t.audience | none => chars ""
  match pyIndex valid_tones toneWanted, pyIndex output_types otWanted with
  | some i, some j =>
    some (goal, (valid_tones.get? i).getD (chars ""),
          (output_types.get? j).getD (chars ""), audience)
  | _, _ => none

/-- A Python exception value, reduced to its message. -/
structure PyExc where
  msg : Str
deriving DecidableEq

/-- One row of the history CSV (the `new_row` dict, source lines 288-295). -/
structure HistoryRecord where
  timestamp : Str
  goal : Str
  tone : Str
  output_type : Str
  audience : Str
  prompt : Str
deriving DecidableEq

/-- The injected outcomes of the external effects the submission handler
performs, in source order: the model call (line 271), the .txt write
(lines 283-285), the history-CSV read (line 299) and write (line 303). -/
structure Effects where
  gen : Except PyExc Str
  txtWrite : Except PyExc Unit
  csvRead : Except PyExc Unit
  csvWrite : Except PyExc Unit
  /-- The contents the history file is left with when `df.to_csv` raises
  mid-write: `to_csv` opens the file in write mode, truncating it before
  writing, so an interrupted write leaves indeterminate contents (empty,
  partial, or complete).  The model makes no commitment and takes the
  post-failure contents as injected. -/
  csvPartial : Option (List HistoryRecord)

/-- What the submission handler leaves behind. -/
structure SubmitResult where
  shownPrompt : Option Str
  shownError : Option PyExc
  savedTxt : Option Str
  histFile : Option (List HistoryRecord)
  uncaught : Option PyExc
deriving DecidableEq

/-- Appending a row to the history file (source lines 297-303): build a
one-row table when the file does not exist, otherwise read it and
concatenate the new row at the end. -/
def appendRow (file : Option (List HistoryRecord)) (row : HistoryRecord) :
    List HistoryRecord :=
  match file with
  | some rows => rows ++ [row]
  | none => [row]

/-- The `try`/`except` submission handler (source lines 270-306).  Effects
run in source order; the first effect that raises aborts the rest of the
`try` block and its exception is caught by the `except Exception` clause,
which shows the message as an error.  `uncaught` records an exception
escaping the handler; no branch produces one.  A failed `to_csv` leaves the
file with the injected indeterminate contents `eff.csvPartial` (the write
truncates the file before writing); every earlier failure leaves the file
untouched because the CSV code has not run yet. -/
def runSubmit (isDev saveTxt : Bool) (hist0 : Option (List HistoryRecord))
    (ts goal tone output_type audience : Str) (eff : Effects) : SubmitResult :=
  match eff.gen with
  | Except.error e =>
    { shownPrompt := none, shownError := some e, savedTxt := none,
      histFile := hist0, uncaught := none }
  | Except.ok result =>
    match (if saveTxt then eff.txtWrite else Except.ok ()) with
    | Except.error e =>
      { shownPrompt := some result, shownError := some e, savedTxt := none,
        histFile := hist0, uncaught := none }
    | Except.ok _ =>
      let saved := if saveTxt then some result else none
      if isDev then
        match (match hist0 with | some _ => eff.csvRead | none => Except.ok ()) with
        | Except.error e =>
          { shownPrompt := some result, shownError := some e, savedTxt := saved,
            histFile := hist0, uncaught := none }
        | Except.ok _ =>
          match eff.csvWrite with
          | Except.error e =>
            { shownPrompt := some result, shownError := some e, savedTxt := saved,
              histFile := eff.csvPartial, uncaught := none }
          | Except.ok _ =>
            { shownPrompt := some result, shownError := none, savedTxt := saved,
              histFile := some (appendRow hist0 ⟨ts, goal, tone, output_type, audience, result⟩),
              uncaught := none }
      else
        { shownPrompt := some result, shownError := none, savedTxt := saved,
          histFile := hist0, uncaught := none }

/-- The submitted form state (source lines 207-220). -/
structure FormInput where
  goal : Str
  tone : Str
  output_type : Str
  audience : Str
  save_txt : Bool
  depth : Nat
  god_mode : Bool
  timestamp : Str

/-- What one run of the script leaves behind. -/
structure AppOutcome where
  haltedMissingKey : Bool
  keyErrorShown : Bool
  configured : Bool
  assembled : Option Str
  submission : Option SubmitResult

/-- Whole-script control flow around the credential check (source lines
25-32) and the submission branch (lines 223 on): with no API key (or an
empty one, both falsy in Python) the script shows the missing-key error and
`st.stop()`s before `genai.configure`, before any prompt assembly and
before any external call; otherwise it configures the model and, when the
form was submitted, assembles the prompt and runs the handler. -/
def runApp (apiKey : Option Str) (isDev : Bool) (form : Option FormInput)
    (hist0 : Option (List HistoryRecord)) (eff : Effects) : AppOutcome :=
  match apiKey with
  | none =>
    { haltedMissingKey := true, keyErrorShown := true, configured := false,
      assembled := none, submission := none }
  | some k =>
    if k == [] then
      { haltedMissingKey := true, keyErrorShown := true, configured := false,
        assembled := none, submission := none }
    else
      match form with
      | none =>
        { haltedMissingKey := false, keyErrorShown := false, configured := true,
          assembled := none, submission := none }
      | some f =>
        { haltedMissingKey := false, keyErrorShown := false, configured := true,
          assembled := some (assemble f.goal f.tone f.output_type f.audience f.depth f.god_mode),
          submission := some (runSubmit isDev f.save_txt hist0 f.timestamp
            f.goal f.tone f.output_type f.audience eff) }

-- Sample free-text field values used to witness the exactly-once property
-- of the normal template; they trigger normal mode and occur nowhere in the
-- fixed template text nor in any tone or output-type label.
def sample_goal : Str := chars "Summarize my meeting notes"

def sample_audience : Str := chars "General readers"

/-- For one tone and every output type in the 6-label list, each of the four
interpolated values occurs exactly once in the normal-mode prompt built with
the sample goal and audience. -/
def tone_once_check (t : Str) : Bool :=
  output_types.all (fun o =>
    (countOccs (normal_prompt_template sample_goal t o sample_audience) t == 1) &&
    (countOccs (normal_prompt_template sample_goal t o sample_audience) o == 1) &&
    (countOccs (normal_prompt_template sample_goal t o sample_audience) sample_goal == 1) &&
    (countOccs (normal_prompt_template sample_goal t o sample_audience) sample_audience == 1))

/-- For every tone in the 16-label list and every output type in the 6-label
list, each of the four interpolated values occurs exactly once in the
normal-mode prompt built with the sample goal and audience. -/
def fields_once_check : Bool :=
  valid_tones.all tone_once_check

/-- A positive scan count exhibits a substring occurrence, whatever the
fuel. -/
theorem containsSub_of_countOccsAux_pos (pat : Str) :
    ∀ fuel s, 0 < countOccsAux pat fuel s → containsSub s pat = true := by
  intro fuel
  induction fuel with
  | zero => intro s h; simp [countOccsAux] at h
  | succ n ih =>
    intro s h
    cases s with
    | nil => simp [countOccsAux] at h
    | cons c rest =>
      by_cases hp : hasPrefix pat (c :: rest) = true
      · simp [containsSub, hp]
      · have hb : hasPrefix pat (c :: rest) = false := by
          simpa using hp
        have heq : countOccsAux pat (n + 1) (c :: rest) = countOccsAux pat n rest := by
          simp [countOccsAux, hb]
        rw [heq] at h
        have hrest := ih rest h
        simp [containsSub, hb, hrest]

/-- A positive Python-count means the pattern occurs in the string. -/
theorem containsSub_of_countOccs_pos (s pat : Str)
    (h : 0 < countOccs s pat) : containsSub s pat = true :=
  containsSub_of_countOccsAux_pos pat s.length s h

/-- The two instruction templates are distinct strings, whatever is
interpolated: they already differ at character index 10. -/
theorem normal_ne_inception (g t o a : Str) (d : Nat) (gm : Bool) :
    normal_prompt_template g t o a ≠ inception_prompt_template d gm := by
  intro h
  have h1 : (normal_prompt_template g t o a).get? 10 = some ' ' := rfl
  have h2 : (inception_prompt_template d gm).get? 10 = some 'n' := rfl
  have h3 : (some ' ' : Option Char) = some 'n' := by rw [← h1, ← h2, h]
  exact absurd h3 (by decide)

/-- Claim C1: for every goal string, `assemble` routes to the recursion-mode
("inception") instruction template if and only if the lowercased goal
contains the substring "prompt" three or more times; with two or fewer
occurrences it routes to the normal-mode template. -/
theorem assemble_routes_on_prompt_count (goal tone output_type audience : Str)
    (d : Nat) (g : Bool) :
    (assemble goal tone output_type audience d g = inception_prompt_template d g ↔
      3 ≤ countOccs (pyLower goal) (chars "prompt")) ∧
    (assemble goal tone output_type audience d g =
        normal_prompt_template goal tone output_type audience ↔
      countOccs (pyLower goal) (chars "prompt") < 3) := by
  by_cases hc : inceptionCond goal = true
  · have hc' : (containsSub (pyLower goal) (chars "prompt") &&
        decide (3 ≤ countOccs (pyLower goal) (chars "prompt"))) = true := hc
    have hcount : 3 ≤ countOccs (pyLower goal) (chars "prompt") :=
      of_decide_eq_true ((Bool.and_eq_true _ _).mp hc').2
    have ha : assemble goal tone output_type audience d g =
        inception_prompt_template d g := by
      simp [assemble, hc]
    refine ⟨⟨fun _ => hcount, fun _ => ha⟩,
      ⟨fun he => ?_, fun hlt => absurd hcount (by omega)⟩⟩
    exact absurd (he.symm.trans ha)
      (normal_ne_inception goal tone output_type audience d g)
  · have hcF : inceptionCond goal = false := by simpa using hc
    have hcount : countOccs (pyLower goal) (chars "prompt") < 3 := by
      rcases Nat.lt_or_ge (countOccs (pyLower goal) (chars "prompt")) 3 with hlt | hge
      · exact hlt
      · exfalso
        have hcont : containsSub (pyLower goal) (chars "prompt") = true :=
          containsSub_of_countOccs_pos _ _ (by omega)
        have htr : inceptionCond goal = true := by
          show (containsSub (pyLower goal) (chars "prompt") &&
            decide (3 ≤ countOccs (pyLower goal) (chars "prompt"))) = true
          rw [hcont, decide_eq_true hge]
          rfl
        exact hc htr
    have ha : assemble goal tone output_type audience d g =
        normal_prompt_template goal tone output_type audience := by
      simp [assemble, hcF]
    refine ⟨⟨fun he => ?_, fun hge => absurd hge (by omega)⟩,
      ⟨fun _ => hcount, fun _ => ha⟩⟩
    exact absurd (ha.symm.trans he)
      (normal_ne_inception goal tone output_type audience d g)

set_option maxRecDepth 100000 in
/-- Claim C2 fails as stated: with the enum pair ("Professional", "Text")
and the goal "prompt" (which routes to the normal template, since the count
is below three), the interpolated goal value occurs five times in the
produced prompt text, not exactly once -- the fixed normal-mode text itself
contains the word "prompt" four times. -/
theorem normal_field_not_unique_cex :
    inceptionCond (chars "prompt") = false ∧
    List.contains valid_tones (chars "Professional") = true ∧
    List.contains output_types (chars "Text") = true ∧
    countOccs (assemble (chars "prompt") (chars "Professional") (chars "Text")
        (chars "General readers") 1 false) (chars "prompt") = 5 :=
  ⟨by decide, by decide, by decide, by decide⟩


set_option maxRecDepth 200000 in
set_option maxHeartbeats 1600000 in
/-- Exactly-once check for the tone label number 1, over all six output
types. -/
theorem tone_once_1 : tone_once_check (chars "Clear and helpful") = true := by decide

set_option maxRecDepth 200000 in
set_option maxHeartbeats 1600000 in
/-- Exactly-once check for the tone label number 2, over all six output
types. -/
theorem tone_once_2 : tone_once_check (chars "Professional") = true := by decide

set_option maxRecDepth 200000 in
set_option maxHeartbeats 1600000 in
/-- Exactly-once check for the tone label number 3, over all six output
types. -/
theorem tone_once_3 : tone_once_check (chars "Casual") = true := by decide

set_option maxRecDepth 200000 in
set_option maxHeartbeats 1600000 in
/-- Exactly-once check for the tone label number 4, over all six output
types. -/
theorem tone_once_4 : tone_once_check (chars "Funny") = true := by decide

set_option maxRecDepth 200000 in
set_option maxHeartbeats 1600000 in
/-- Exactly-once check for the tone label number 5, over all six output
types. -/
theorem tone_once_5 : tone_once_check (chars "Creative") = true := by decide

set_option maxRecDepth 200000 in
set_option maxHeartbeats 1600000 in
/-- Exactly-once check for the tone label number 6, over all six output
types. -/
theorem tone_once_6 : tone_once_check (chars "Motivational") = true := by decide

set_option maxRecDepth 200000 in
set_option maxHeartbeats 1600000 in
/-- Exactly-once check for the tone label number 7, over all six output
types. -/
theorem tone_once_7 : tone_once_check (chars "Witty") = true := by decide

set_option maxRecDepth 200000 in
set_option maxHeartbeats 1600000 in
/-- Exactly-once check for the tone label number 8, over all six output
types. -/
theorem tone_once_8 : tone_once_check (chars "Analytical") = true := by decide

set_option maxRecDepth 200000 in
set_option maxHeartbeats 1600000 in
/-- Exactly-once check for the tone label number 9, over all six output
types. -/
theorem tone_once_9 : tone_once_check (chars "Cynical but comforting") = true := by decide

set_option maxRecDepth 200000 in
set_option maxHeartbeats 1600000 in
/-- Exactly-once check for the tone label number 10, over all six output
types. -/
theorem tone_once_10 : tone_once_check (chars "Roasty") = true := by decide

set_option maxRecDepth 200000 in
set_option maxHeartbeats 1600000 in
/-- Exactly-once check for the tone label number 11, over all six output
types. -/
theorem tone_once_11 : tone_once_check (chars "Passive aggressive") = true := by decide

set_option maxRecDepth 200000 in
set_option maxHeartbeats 1600000 in
/-- Exactly-once check for the tone label number 12, over all six output
types. -/
theorem tone_once_12 : tone_once_check (chars "Aggressively encouraging") = true := by decide

set_option maxRecDepth 200000 in
set_option maxHeartbeats 1600000 in
/-- Exactly-once check for the tone label number 13, over all six output
types. -/
theorem tone_once_13 : tone_once_check (chars "Satirical") = true := by decide

set_option maxRecDepth 200000 in
set_option maxHeartbeats 1600000 in
/-- Exactly-once check for the tone label number 14, over all six output
types. -/
theorem tone_once_14 : tone_once_check (chars "Irritated") = true := by decide

set_option maxRecDepth 200000 in
set_option maxHeartbeats 1600000 in
/-- Exactly-once check for the tone label number 15, over all six output
types. -/
theorem tone_once_15 : tone_once_check (chars "Snarky") = true := by decide

set_option maxRecDepth 200000 in
set_option maxHeartbeats 1600000 in
/-- Exactly-once check for the tone label number 16, over all six output
types. -/
theorem tone_once_16 : tone_once_check (chars "Reflective") = true := by decide

set_option maxRecDepth 100000 in
/-- Claim C2 (amended): for every enum pair and any goal and audience, when
the goal does not trigger recursion mode the produced prompt contains each
of the four interpolated values at its expected position in the template
(the output is the fixed template segments with the four values spliced
between them, after the labels "Goal:", "Tone:", "Output Type:",
"Audience:"); and "exactly once" holds for all 96 enum pairs when the goal
and audience are sample values that do not otherwise occur in the text,
rather than for arbitrary goal and audience strings. -/
theorem normal_fields_positions (goal tone output_type audience : Str)
    (d : Nat) (g : Bool) (h : inceptionCond goal = false) :
    assemble goal tone output_type audience d g =
      normal_seg0 ++ goal ++ normal_seg1 ++ tone ++ normal_seg2 ++ output_type ++
        normal_seg3 ++ audience ++ normal_seg4 ∧
    fields_once_check = true := by
  refine ⟨?_, ?_⟩
  · simp [assemble, h, normal_prompt_template]
  · unfold fields_once_check
    simp only [valid_tones, List.all_cons, List.all_nil, Bool.and_eq_true, Bool.and_true]
    exact ⟨tone_once_1, tone_once_2, tone_once_3, tone_once_4, tone_once_5, tone_once_6,
      tone_once_7, tone_once_8, tone_once_9, tone_once_10, tone_once_11, tone_once_12,
      tone_once_13, tone_once_14, tone_once_15, tone_once_16⟩

/-- Witness for the amended C2 at a concrete submission. -/
theorem normal_fields_positions_witness :
    assemble (chars "Plan my day") (chars "Casual") (chars "JSON") (chars "me") 2 true =
      normal_seg0 ++ chars "Plan my day" ++ normal_seg1 ++ chars "Casual" ++ normal_seg2 ++
        chars "JSON" ++ normal_seg3 ++ chars "me" ++ normal_seg4 ∧
    fields_once_check = true :=
  normal_fields_positions (chars "Plan my day") (chars "Casual") (chars "JSON")
    (chars "me") 2 true (by decide)

/-- Claim C3: the recursion-depth and god-mode flags never alter routing or
normal-mode content: whenever the goal routes to the normal template, two
runs differing only in depth and god_mode produce the identical prompt
text. -/
theorem flags_echo_only (goal tone output_type audience : Str) (d1 d2 : Nat)
    (g1 g2 : Bool) (h : inceptionCond goal = false) :
    assemble goal tone output_type audience d1 g1 =
      normal_prompt_template goal tone output_type audience ∧
    assemble goal tone output_type audience d1 g1 =
      assemble goal tone output_type audience d2 g2 := by
  constructor <;> simp [assemble, h]

/-- Witness for C3 at a concrete goal with both flags varied. -/
theorem flags_echo_only_witness :
    assemble (chars "write a haiku") (chars "Casual") (chars "Text") (chars "friends") 1 false =
      normal_prompt_template (chars "write a haiku") (chars "Casual") (chars "Text") (chars "friends") ∧
    assemble (chars "write a haiku") (chars "Casual") (chars "Text") (chars "friends") 1 false =
      assemble (chars "write a haiku") (chars "Casual") (chars "Text") (chars "friends") 5 true :=
  flags_echo_only (chars "write a haiku") (chars "Casual") (chars "Text") (chars "friends")
    1 5 false true (by decide)

/-- Claim C4: when the model call raises, the handler shows the error, shows
no result, saves no file, and leaves the history file exactly as it was. -/
theorem gen_failure_atomic (isDev saveTxt : Bool)
    (hist0 : Option (List HistoryRecord)) (ts goal tone output_type audience : Str)
    (eff : Effects) (e : PyExc) (h : eff.gen = Except.error e) :
    runSubmit isDev saveTxt hist0 ts goal tone output_type audience eff =
      { shownPrompt := none, shownError := some e, savedTxt := none,
        histFile := hist0, uncaught := none } := by
  unfold runSubmit
  rw [h]

/-- Witness for C4 at a concrete failing submission over a nonempty store. -/
theorem gen_failure_atomic_witness :
    runSubmit true true (some []) (chars "2025-01-01 12:00:00") (chars "plan my day")
        (chars "Casual") (chars "Text") (chars "me")
        { gen := Except.error ⟨chars "boom"⟩, txtWrite := Except.ok (),
          csvRead := Except.ok (), csvWrite := Except.ok (), csvPartial := none } =
      { shownPrompt := none, shownError := some ⟨chars "boom"⟩, savedTxt := none,
        histFile := some [], uncaught := none } :=
  gen_failure_atomic true true (some []) (chars "2025-01-01 12:00:00") (chars "plan my day")
    (chars "Casual") (chars "Text") (chars "me")
    { gen := Except.error ⟨chars "boom"⟩, txtWrite := Except.ok (),
      csvRead := Except.ok (), csvWrite := Except.ok (), csvPartial := none } ⟨chars "boom"⟩ rfl

set_option maxRecDepth 100000 in
/-- Claim C5 fails as stated: with goal "prompt prompt prompt" (recursion
mode) and audience "prompt", the assembled text does contain the
interpolated audience value, so it is not true that the text contains none
of the four user field values. -/
theorem inception_contains_audience_cex :
    inceptionCond (chars "prompt prompt prompt") = true ∧
    0 < countOccs (assemble (chars "prompt prompt prompt") (chars "Professional")
        (chars "Text") (chars "prompt") 1 false) (chars "prompt") :=
  ⟨by decide, by decide⟩

set_option maxRecDepth 400000 in
set_option maxHeartbeats 2000000 in
/-- Claim C5 (amended): when the goal triggers recursion mode, the template
drops all four user fields: the assembled text is the same whatever the
four field values are (it depends only on depth and god mode), and for any
slider depth it contains none of the 16 tone labels and none of the 6
output-type labels; a free-text goal or audience value may still occur in
it coincidentally (for example audience "prompt"). -/
theorem inception_drops_user_fields (goal tone output_type audience goal2 tone2 ot2 aud2 : Str)
    (d : Nat) (g : Bool) (h : inceptionCond goal = true) (h2 : inceptionCond goal2 = true)
    (hd1 : 1 ≤ d) (hd5 : d ≤ 5) :
    assemble goal tone output_type audience d g = assemble goal2 tone2 ot2 aud2 d g ∧
    valid_tones.all (fun t =>
      countOccs (assemble goal tone output_type audience d g) t == 0) = true ∧
    output_types.all (fun o =>
      countOccs (assemble goal tone output_type audience d g) o == 0) = true := by
  have ha : assemble goal tone output_type audience d g =
      inception_prompt_template d g := by
    simp [assemble, h]
  have hb : assemble goal2 tone2 ot2 aud2 d g = inception_prompt_template d g := by
    simp [assemble, h2]
  refine ⟨ha.trans hb.symm, ?_, ?_⟩ <;> rw [ha] <;> interval_cases d <;> cases g <;> decide

/-- Witness for the amended C5 with two submissions differing in every user
field. -/
theorem inception_drops_user_fields_witness :
    assemble (chars "prompt prompt prompt") (chars "Professional") (chars "Text") (chars "everyone") 2 true =
      assemble (chars "a prompt for a prompt for a prompt") (chars "Casual") (chars "JSON") (chars "me") 2 true ∧
    valid_tones.all (fun t =>
      countOccs (assemble (chars "prompt prompt prompt") (chars "Professional") (chars "Text") (chars "everyone") 2 true) t == 0) = true ∧
    output_types.all (fun o =>
      countOccs (assemble (chars "prompt prompt prompt") (chars "Professional") (chars "Text") (chars "everyone") 2 true) o == 0) = true :=
  inception_drops_user_fields (chars "prompt prompt prompt") (chars "Professional")
    (chars "Text") (chars "everyone") (chars "a prompt for a prompt for a prompt")
    (chars "Casual") (chars "JSON") (chars "me") 2 true
    (by decide) (by decide) (by decide) (by decide)

/-- Claim C6: selecting the preset "Cold Outreach Message" prefills the four
form fields with exactly the catalog values of that preset. -/
theorem cold_outreach_prefill :
    form_prefill (chars "Cold Outreach Message") =
      some (chars "Craft a short, attention-grabbing message to reach out to a new commercial real estate prospect in Tucson, AZ.",
            chars "Professional", chars "Text", chars "Commercial property owners") := by
  decide

/-- Claim C7: two successful dev-mode submissions starting from a missing
history file leave a store of exactly two rows, first-appended first. -/
theorem history_append_twice (ts1 g1 t1 o1 a1 r1 ts2 g2 t2 o2 a2 r2 : Str) :
    (runSubmit true false
        ((runSubmit true false none ts1 g1 t1 o1 a1
            { gen := Except.ok r1, txtWrite := Except.ok (),
              csvRead := Except.ok (), csvWrite := Except.ok (),
              csvPartial := none }).histFile)
        ts2 g2 t2 o2 a2
        { gen := Except.ok r2, txtWrite := Except.ok (),
          csvRead := Except.ok (), csvWrite := Except.ok (),
          csvPartial := none }).histFile =
      some [⟨ts1, g1, t1, o1, a1, r1⟩, ⟨ts2, g2, t2, o2, a2, r2⟩] := rfl

/-- Claim C9: with the API key absent the script halts at the startup check:
it shows the missing-key error, stops, configures no model, assembles no
prompt and makes no external call, whatever the form or environment
holds. -/
theorem missing_key_halts (isDev : Bool) (form : Option FormInput)
    (hist0 : Option (List HistoryRecord)) (eff : Effects) :
    runApp none isDev form hist0 eff =
      { haltedMissingKey := true, keyErrorShown := true, configured := false,
        assembled := none, submission := none } := rfl

set_option maxRecDepth 100000 in
/-- Claim C10: every preset in the static catalog carries a tone from the 16
fixed tone labels and an output type from the 6 fixed output-type labels,
so the selectbox index lookups used to prefill the form succeed and round
back to exactly the stored value for every entry. -/
theorem catalog_enum_invariant :
    templates.all (fun p =>
      match pyIndex valid_tones p.2.tone, pyIndex output_types p.2.output_type with
      | some i, some j =>
        ((valid_tones.get? i).getD (chars "") == p.2.tone) &&
        ((output_types.get? j).getD (chars "") == p.2.output_type)
      | _, _ => false) = true := by
  decide
